import Mathlib

/-!
Verification of the FutureHouse API wrapper (src/app.py).

The development shallowly embeds the asynchronous task lifecycle of the
wrapper: the two module-level dicts active_tasks and task_results become an
explicit Store record of association lists, the external FutureHouse client
becomes a record of oracle functions, HTTP handlers become pure functions
from their inputs (request body, client, store) to an HttpResponse, and a
raised Python exception becomes the error side of an Except value.  Where
module-level name resolution decides behavior (the mangled handle_errors
decorator, and the reference to the nowhere-defined execute_task_async in
create_async_task), the set of names bound at module top level is embedded
as a list of strings and lookups are modelled explicitly.
-/

/-- Association-list update modelling the Python dict assignment d[k] = v
(the previous binding of k, if any, is replaced). -/
def dinsert {α : Type} (k : String) (v : α) (d : List (String × α)) :
    List (String × α) :=
  (k, v) :: d.filter (fun p => p.1 != k)

/-- Association-list lookup modelling the Python dict read d[k] / d.get(k). -/
def dget {α : Type} (k : String) (d : List (String × α)) : Option α :=
  (d.find? (fun p => p.1 == k)).map (fun p => p.2)

/-- Membership test modelling the Python expression k in d. -/
def dmem {α : Type} (k : String) (d : List (String × α)) : Bool :=
  d.any (fun p => p.1 == k)

/-- Python str.upper as applied to job names (ASCII inputs). -/
def pyUpper (s : String) : String :=
  String.mk (s.data.map Char.toUpper)

/-- The task description built by the handlers (app.py lines 229-241,
411-419, 517-525, 578-585).  The name field holds getattr(JobNames, job_name);
the JobNames class binds each attribute to its own name as a string, so the
field is the upper-cased job name.  task_id is the optional caller-supplied
id added only by create_task (line 241). -/
structure TaskData where
  name : String
  query : String
  runtime_config : Option String
  task_id : Option String
deriving DecidableEq

/-- One entry of the active_tasks dict (app.py lines 87-91). -/
structure ActiveEntry where
  status : String
  started_at : Nat
  task_data : TaskData
deriving DecidableEq

/-- One entry of the task_results dict.  The success dict (lines 97-105) and
the error dict (lines 121-127) have different key sets, so keys present in
only one of them are Options here; error is the error flag key, present
(True) only in the error dict. -/
structure ResultEntry where
  status : String
  task_id : String
  job_name : Option String
  query : Option String
  response : Option String
  completed_at : Nat
  message : String
  error : Option Bool
deriving DecidableEq

/-- The two module-level dicts (app.py lines 39-40). -/
structure Store where
  active_tasks : List (String × ActiveEntry)
  task_results : List (String × ResultEntry)
deriving DecidableEq

def emptyStore : Store := ⟨[], []⟩

/-- The external FutureHouse client, an opaque collaborator: each method the
wrapper calls becomes an oracle function, with a raised exception modelled as
the error side carrying str(e). -/
structure Client where
  create_task : TaskData → Except String String
  run_tasks_until_done : TaskData → Bool → Except String String
  arun_tasks_until_done : List TaskData → Except String (List String)
  get_task : String → Except String String
  get_task_status : String → Except String String

/-- The single outbound webhook call descriptor built by
send_webhook_response (app.py lines 66-71): requests.post to the webhook url
with the payload as JSON body and timeout=30. -/
structure WebhookCall where
  url : String
  data : ResultEntry
  task_id : String
  timeout : Nat
deriving DecidableEq

/-- send_webhook_response (app.py lines 63-79).  The outcome of the post is
an oracle argument (an HTTP status code, or a transport error); every outcome
is caught and only logged (lines 73-79), so the function is total and its
only products are the call descriptor and a log line. -/
def send_webhook_response (post : String → ResultEntry → Nat → Except String Nat)
    (webhook_url : String) (data : ResultEntry) (task_id : String) :
    WebhookCall × String :=
  let call : WebhookCall := ⟨webhook_url, data, task_id, 30⟩
  match post webhook_url data 30 with
  | Except.ok code =>
      if code == 200 then
        (call, "Webhook envoyé avec succès pour la tâche " ++ task_id)
      else
        (call, "Erreur webhook pour la tâche " ++ task_id)
  | Except.error e =>
      (call, "Erreur lors de l\x27envoi du webhook pour la tâche " ++ task_id
        ++ ": " ++ e)

/-- Trace of the observable effects of one background execution, in program
order: the registry writes and the webhook delivery attempt. -/
inductive Event where
  | regWrite (task_id : String)
  | resultWrite (task_id : String) (entry : ResultEntry)
  | statusWrite (task_id : String) (status : String)
  | webhookAttempt (call : WebhookCall) (log : String)
deriving DecidableEq

/-- The registration write of the background executor (app.py lines 87-91):
active_tasks[task_id] = dict with status running, started_at now, task_data. -/
def registerTask (st : Store) (task_id : String) (now : Nat) (task_data : TaskData) :
    Store :=
  { st with active_tasks := dinsert task_id ⟨"running", now, task_data⟩ st.active_tasks }

/-- Status update of an existing active_tasks entry, modelling
active_tasks[task_id][status-key] = s (app.py lines 109 and 131).  The source
raises KeyError when task_id is absent; on every program path the entry was
written by registerTask first, so the total map is faithful on the reachable
states. -/
def dupdateStatus (task_id : String) (s : String) (d : List (String × ActiveEntry)) :
    List (String × ActiveEntry) :=
  d.map (fun p => if p.1 == task_id then (p.1, { p.2 with status := s }) else p)

/-- The success result dict (app.py lines 97-105). -/
def successEntry (task_id : String) (task_data : TaskData) (resp : String)
    (doneAt : Nat) : ResultEntry :=
  { status := "success", task_id := task_id, job_name := some task_data.name,
    query := some task_data.query, response := some resp, completed_at := doneAt,
    message := "Tâche exécutée avec succès", error := none }

/-- The error result dict (app.py lines 121-127). -/
def errorEntry (task_id : String) (e : String) (doneAt : Nat) : ResultEntry :=
  { status := "error", task_id := task_id, job_name := none, query := none,
    response := none, completed_at := doneAt, message := e, error := some true }

/-- The pair of terminal registry writes on success (app.py lines 108-109):
task_results[task_id] = result, then the active entry status becomes
completed. -/
def completeTask (st : Store) (task_id : String) (result : ResultEntry) : Store :=
  { st with task_results := dinsert task_id result st.task_results,
            active_tasks := dupdateStatus task_id "completed" st.active_tasks }

/-- The pair of terminal registry writes on failure (app.py lines 130-131):
task_results[task_id] = error_result, then the active entry status becomes
error. -/
def failTask (st : Store) (task_id : String) (err : ResultEntry) : Store :=
  { st with task_results := dinsert task_id err st.task_results,
            active_tasks := dupdateStatus task_id "error" st.active_tasks }

/-- The try block of the background executor (app.py lines 83-115): register
the task, run the client until done, and on success write the terminal result
and attempt the webhook.  A raised exception from the client call is the
error side, carrying str(e) together with the store and events already
produced (dict mutations persist across a raise). -/
def execute_try (c : Client) (st : Store) (task_data : TaskData) (task_id : String)
    (webhook_url : Option String) (verbose : Bool)
    (post : String → ResultEntry → Nat → Except String Nat) (now doneAt : Nat) :
    Except (String × Store × List Event) (Store × List Event) :=
  let st1 := registerTask st task_id now task_data
  let evs1 : List Event := [Event.regWrite task_id]
  match c.run_tasks_until_done task_data verbose with
  | Except.error e => Except.error (e, st1, evs1)
  | Except.ok resp =>
      let result := successEntry task_id task_data resp doneAt
      let st2 := completeTask st1 task_id result
      let evs2 := evs1 ++ [Event.resultWrite task_id result,
                           Event.statusWrite task_id "completed"]
      match webhook_url with
      | some u =>
          let wc := send_webhook_response post u result task_id
          Except.ok (st2, evs2 ++ [Event.webhookAttempt wc.1 wc.2])
      | none => Except.ok (st2, evs2)

/-- The except block of the background executor (app.py lines 117-135):
store the error result, mark the active entry, and attempt the webhook with
the failure payload.  Every statement in the block is total, so the handler
never re-raises. -/
def execute_except (e : String) (st1 : Store) (evs1 : List Event)
    (task_id : String) (webhook_url : Option String)
    (post : String → ResultEntry → Nat → Except String Nat) (doneAt : Nat) :
    Store × List Event :=
  let er := errorEntry task_id e doneAt
  let st2 := failTask st1 task_id er
  let evs2 := evs1 ++ [Event.resultWrite task_id er,
                       Event.statusWrite task_id "error"]
  match webhook_url with
  | some u =>
      let wc := send_webhook_response post u er task_id
      (st2, evs2 ++ [Event.webhookAttempt wc.1 wc.2])
  | none => (st2, evs2)

/-- The background executor: the body at app.py lines 83-135, the function
invoked as execute_task_async with arguments (task_data, task_id,
webhook_url, verbose) at lines 422-425.  Its top level is try/except over
every statement, so the function is total: every outcome of the client call
yields a normally-returned store and event trace. -/
def execute_task_async (c : Client) (st : Store) (task_data : TaskData)
    (task_id : String) (webhook_url : Option String) (verbose : Bool)
    (post : String → ResultEntry → Nat → Except String Nat) (now doneAt : Nat) :
    Store × List Event :=
  match execute_try c st task_data task_id webhook_url verbose post now doneAt with
  | Except.ok r => r
  | Except.error (e, st1, evs1) =>
      execute_except e st1 evs1 task_id webhook_url post doneAt

/-- The webhook delivery attempts recorded in an event trace. -/
def webhookCallsOf (evs : List Event) : List WebhookCall :=
  evs.filterMap (fun ev =>
    match ev with
    | Event.webhookAttempt c _ => some c
    | _ => none)

/-- The JSON bodies the handlers return.  One constructor per dict shape
built in app.py; string fields carry the literal message texts. -/
inductive Body where
  | errorB (message : String)
  | wrapErrB (message : String)
  | resultB (entry : ResultEntry)
  | runningB (status : String) (task_id : String) (started_at : Nat)
      (running_time : Nat) (message : String)
  | pendingB (task_id : String) (message : String)
  | createdB (task_id : String) (job_name : String) (query : String)
      (message : String)
  | acceptedB (task_id : String) (job_name : String) (query : String)
      (webhook_url : Option String) (message : String)
      (status_url : String) (result_url : String)
  | taskResultB (task_id : String) (result : String)
  | runB (job_name : String) (query : String) (response : String)
      (message : String)
  | runErrB (message : String) (job_name : String) (query : String)
  | batchB (results : List String) (count : Nat) (message : String)
  | noneBody
deriving DecidableEq

/-- An HTTP response: status code and JSON body. -/
structure HttpResponse where
  code : Nat
  body : Body
deriving DecidableEq

/-- The request body for the submission endpoints, with every optional key
an Option (absence of job_name or query is the 400 validation case). -/
structure ReqBody where
  job_name : Option String
  query : Option String
  webhook_url : Option String
  verbose : Option Bool
  runtime_config : Option String
  task_id : Option String
deriving DecidableEq

/-- One entry of the tasks list of a batch request (app.py lines 563-585). -/
structure BatchEntry where
  job_name : Option String
  query : Option String
  runtime_config : Option String
deriving DecidableEq

/-- The thread spawned by create_async_task (app.py lines 422-427): the
argument tuple handed to the background executor. -/
structure ThreadSpec where
  task_data : TaskData
  task_id : String
  webhook_url : Option String
  verbose : Bool
deriving DecidableEq

def valid_jobs : List String := ["CROW", "FALCON", "OWL", "PHOENIX", "DUMMY"]

/-- The message of the invalid-job 400 response: the Python f-string
renders the valid_jobs list (app.py lines 226, 405, 514). -/
def invalidJobMessage : String :=
  "Job invalide. Jobs disponibles: [\x27CROW\x27, \x27FALCON\x27, \x27OWL\x27, \x27PHOENIX\x27, \x27DUMMY\x27]"

/-- The message of the per-entry invalid-job 400 response of the batch
endpoint (app.py line 575). -/
def batchInvalidMessage (job_name : String) : String :=
  "Job invalide: " ++ job_name
    ++ ". Jobs disponibles: [\x27CROW\x27, \x27FALCON\x27, \x27OWL\x27, \x27PHOENIX\x27, \x27DUMMY\x27]"

/-- GET /task/(task_id)/status, the handler get_async_task_status
(app.py lines 256-281).  The final noneBody case mirrors the Python
control flow falling off the end of the function; it is unreachable because
the first test already answered 404 when the id is in neither dict. -/
def get_async_task_status (st : Store) (task_id : String) (now : Nat) :
    HttpResponse :=
  if !(dmem task_id st.active_tasks) && !(dmem task_id st.task_results) then
    ⟨404, Body.errorB ("Tâche non trouvée")⟩
  else
    match dget task_id st.task_results with
    | some r => ⟨200, Body.resultB r⟩
    | none =>
        match dget task_id st.active_tasks with
        | some a =>
            ⟨200, Body.runningB a.status task_id a.started_at (now - a.started_at)
              ("Tâche en cours d\x27exécution")⟩
        | none => ⟨500, Body.noneBody⟩

/-- GET /task/(task_id)/result, the handler get_async_task_result
(app.py lines 283-302): 200 with the stored dict when the id is in
task_results, 202 when only in active_tasks, 404 otherwise. -/
def get_async_task_result (st : Store) (task_id : String) : HttpResponse :=
  match dget task_id st.task_results with
  | none =>
      if dmem task_id st.active_tasks then
        ⟨202, Body.pendingB task_id ("Tâche en cours, résultat pas encore disponible")⟩
      else
        ⟨404, Body.errorB ("Tâche non trouvée")⟩
  | some r => ⟨200, Body.resultB r⟩

/-- The duplicate GET /task/(task_id)/result handler get_task_result
(app.py lines 347-366): try the external client first; any exception from
the lookup (including the AttributeError raised when client is None) falls
back to get_async_task_result. -/
def get_task_result (client : Option Client) (st : Store) (task_id : String) :
    HttpResponse :=
  match client with
  | none => get_async_task_result st task_id
  | some c =>
      match c.get_task task_id with
      | Except.ok r => ⟨200, Body.taskResultB task_id r⟩
      | Except.error _ => get_async_task_result st task_id

/-- POST /task, the handler create_task (app.py lines 199-254).  There is no
client-availability check: when client is None the attribute access
client.create_task raises, which is the error side here.  An exception from
the external call also propagates to the decorator. -/
def create_task (client : Option Client) (data : Option ReqBody) :
    Except String HttpResponse :=
  match data with
  | none => Except.ok ⟨400, Body.errorB ("Données JSON requises")⟩
  | some d =>
      match d.job_name, d.query with
      | some jn, some q =>
          let job_name := pyUpper jn
          if valid_jobs.contains job_name then
            let td : TaskData :=
              { name := job_name, query := q,
                runtime_config := d.runtime_config, task_id := d.task_id }
            match client with
            | none =>
                Except.error
                  ("AttributeError: \x27NoneType\x27 object has no attribute \x27create_task\x27")
            | some c =>
                match c.create_task td with
                | Except.ok tid =>
                    Except.ok ⟨200,
                      Body.createdB tid job_name q ("Tâche créée avec succès")⟩
                | Except.error e => Except.error e
          else
            Except.ok ⟨400, Body.errorB invalidJobMessage⟩
      | _, _ =>
          Except.ok ⟨400, Body.errorB ("Les paramètres job_name et query sont requis")⟩

/-- POST /task/async, the handler create_async_task (app.py lines 368-440).
available is the FUTUREHOUSE_AVAILABLE flag; the 503 guard is the test at
line 374.  g is the set of module-level names bound at the time the handler
runs: building the thread at line 422 reads the global execute_task_async,
and when that name is unbound the handler raises NameError (error side)
before any response is produced.  The handler reads neither active_tasks nor
task_results; its only products are the response and the spawned thread
descriptor. -/
def create_async_task (available : Bool) (client : Option Client)
    (g : List String) (data : Option ReqBody) (freshId : String) :
    Except String (HttpResponse × Option ThreadSpec) :=
  match client with
  | none =>
      Except.ok (⟨503, Body.errorB ("Client FutureHouse non disponible")⟩, none)
  | some _ =>
      if !available then
        Except.ok (⟨503, Body.errorB ("Client FutureHouse non disponible")⟩, none)
      else
        match data with
        | none => Except.ok (⟨400, Body.errorB ("Données JSON requises")⟩, none)
        | some d =>
            match d.job_name, d.query with
            | some jn, some q =>
                let job_name := pyUpper jn
                let webhook_url := d.webhook_url
                let verbose := d.verbose.getD false
                if valid_jobs.contains job_name then
                  let task_data : TaskData :=
                    { name := job_name, query := q,
                      runtime_config := d.runtime_config, task_id := none }
                  if g.contains ("execute_task_async") then
                    Except.ok
                      (⟨202, Body.acceptedB freshId job_name q webhook_url
                          ("Tâche démarrée en mode asynchrone")
                          ("/task/" ++ freshId ++ "/status")
                          ("/task/" ++ freshId ++ "/result")⟩,
                       some ⟨task_data, freshId, webhook_url, verbose⟩)
                  else
                    Except.error
                      ("NameError: name \x27execute_task_async\x27 is not defined")
                else
                  Except.ok (⟨400, Body.errorB invalidJobMessage⟩, none)
            | _, _ =>
                Except.ok
                  (⟨400, Body.errorB ("Les paramètres job_name et query sont requis")⟩,
                   none)

/-- POST /task/run, the handler run_task_until_done (app.py lines 476-548):
503 guard first, then validation, then the blocking client call whose
exception is caught locally and reported as a 500 response. -/
def run_task_until_done (available : Bool) (client : Option Client)
    (data : Option ReqBody) : Except String HttpResponse :=
  match client with
  | none =>
      Except.ok ⟨503,
        Body.errorB ("Client FutureHouse non disponible. Vérifiez la configuration.")⟩
  | some c =>
      if !available then
        Except.ok ⟨503,
          Body.errorB ("Client FutureHouse non disponible. Vérifiez la configuration.")⟩
      else
        match data with
        | none => Except.ok ⟨400, Body.errorB ("Données JSON requises")⟩
        | some d =>
            match d.job_name, d.query with
            | some jn, some q =>
                let job_name := pyUpper jn
                let verbose := d.verbose.getD false
                if valid_jobs.contains job_name then
                  let td : TaskData :=
                    { name := job_name, query := q,
                      runtime_config := d.runtime_config, task_id := none }
                  match c.run_tasks_until_done td verbose with
                  | Except.ok resp =>
                      Except.ok ⟨200,
                        Body.runB job_name q resp ("Tâche exécutée avec succès")⟩
                  | Except.error e =>
                      Except.ok ⟨500,
                        Body.runErrB
                          ("Erreur lors de l\x27exécution de la tâche: " ++ e)
                          job_name q⟩
                else
                  Except.ok ⟨400, Body.errorB invalidJobMessage⟩
            | _, _ =>
                Except.ok ⟨400,
                  Body.errorB ("Les paramètres job_name et query sont requis")⟩

/-- The validation loop of POST /task/batch (app.py lines 562-586): the
first malformed or invalid entry aborts the whole batch with its 400
response, before any execution starts. -/
def buildBatchTasks : List BatchEntry → Except HttpResponse (List TaskData)
  | [] => Except.ok []
  | t :: rest =>
      match t.job_name, t.query with
      | some jn, some q =>
          let job_name := pyUpper jn
          if valid_jobs.contains job_name then
            let td : TaskData :=
              { name := job_name, query := q,
                runtime_config := t.runtime_config, task_id := none }
            match buildBatchTasks rest with
            | Except.ok l => Except.ok (td :: l)
            | Except.error r => Except.error r
          else
            Except.error ⟨400, Body.errorB (batchInvalidMessage job_name)⟩
      | _, _ =>
          Except.error ⟨400, Body.errorB ("Chaque tâche doit avoir job_name et query")⟩

/-- POST /task/batch, the handler run_batch_tasks (app.py lines 550-605).
data is None when the body is missing or has no tasks key.  The client batch
call runs only after the whole list validated; its exception propagates to
the decorator, as does the AttributeError when client is None. -/
def run_batch_tasks (client : Option Client) (data : Option (List BatchEntry)) :
    Except String HttpResponse :=
  match data with
  | none => Except.ok ⟨400, Body.errorB ("Une liste de tâches est requise")⟩
  | some tasks =>
      match buildBatchTasks tasks with
      | Except.error resp => Except.ok resp
      | Except.ok tds =>
          match client with
          | none =>
              Except.error
                ("AttributeError: \x27NoneType\x27 object has no attribute \x27arun_tasks_until_done\x27")
          | some c =>
              match c.arun_tasks_until_done tds with
              | Except.ok results =>
                  Except.ok ⟨200,
                    Body.batchB results results.length
                      (toString results.length ++ " tâches exécutées avec succès")⟩
              | Except.error e => Except.error e

/-- The inner wrapper decorated_function built at app.py lines 137-148: a
normally-returned response passes through, a raised exception becomes the
uniform 500 envelope with str(e). -/
def decorated_function (r : Except String HttpResponse) : HttpResponse :=
  match r with
  | Except.ok resp => resp
  | Except.error e => ⟨500, Body.wrapErrB e⟩

/-- First name of a read sequence that is unbound in the given scope:
evaluating the sequence raises NameError at that name. -/
def firstUndefined (reads defined : List String) : Option String :=
  reads.find? (fun n => !(defined.contains n))

/-- The global names read, in evaluation order, by the first statement of
the try block in the body of handle_errors (app.py line 84): the logger
lookup, then the f-string interpolation of task_id.  The NameError raised
there aborts the block, so no later read of the block occurs. -/
def tryBlockReads : List String := ["logger", "task_id"]

/-- The global names read, in evaluation order, by the first statement of
the except block (app.py line 118): again logger, then task_id. -/
def exceptBlockReads : List String := ["logger", "task_id"]

/-- handle_errors (app.py lines 81-148) applied to a function: the body put
under def handle_errors(f) is the try/except of the background executor, and
it runs at decoration time.  When the try block completes, or when its
exception is absorbed by a completing except block, control reaches lines
137-148 and the decorated function is returned (ok side); when the except
block itself raises NameError, that error propagates out of the decoration
(error side).  Which of these happens depends only on which global names are
bound, so the embedding takes the bound-name list and resolves the read
sequences of the two blocks. -/
def handle_errors (defined : List String) : Except String String :=
  match firstUndefined tryBlockReads defined with
  | none => Except.ok ("decorated_function")
  | some _ =>
      match firstUndefined exceptBlockReads defined with
      | none => Except.ok ("decorated_function")
      | some m =>
          Except.error ("NameError: name \x27" ++ m ++ "\x27 is not defined")

/-- The module-level names bound when the first decoration
(handle_errors applied at app.py line 163) executes during import: the
imports of lines 1-15, then the bindings of lines 16-160. -/
def decorationTimeGlobals : List String :=
  ["Flask", "request", "jsonify", "os", "asyncio", "threading", "time",
   "uuid", "Dict", "Any", "Optional", "logging", "wraps", "requests",
   "FutureHouseClient", "JobNames", "TaskRequest", "FUTUREHOUSE_AVAILABLE",
   "app", "logger", "active_tasks", "task_results", "FUTUREHOUSE_API_KEY",
   "client", "send_webhook_response", "handle_errors", "health_check"]

/-- Every name the module source binds at top level (imports, module
variables, and all def statements).  The name execute_task_async is not
among them: no statement of app.py binds it. -/
def moduleTopLevelNames : List String :=
  decorationTimeGlobals ++
  ["get_available_jobs", "create_task", "get_async_task_status",
   "get_async_task_result", "list_tasks", "get_task_status",
   "get_task_result", "create_async_task", "test_task",
   "run_task_until_done", "run_batch_tasks", "not_found", "internal_error",
   "port", "debug"]

/-- The scope corresponding to the minimal repair of the slip: the same
module with the executor body of lines 83-135 bound to its intended name
execute_task_async, as the call site at line 423 expects. -/
def intendedGlobals : List String :=
  "execute_task_async" :: moduleTopLevelNames

/-- The per-task state an HTTP reader can observe in the store, in the
precedence order the read endpoints use: a task_results entry wins over an
active_tasks entry, which wins over not-found. -/
inductive ObsState where
  | notFound
  | running (a : ActiveEntry)
  | terminal (r : ResultEntry)
deriving DecidableEq

/-- Observable per-task state of a store. -/
def observe (st : Store) (task_id : String) : ObsState :=
  match dget task_id st.task_results with
  | some r => ObsState.terminal r
  | none =>
      match dget task_id st.active_tasks with
      | some a => ObsState.running a
      | none => ObsState.notFound

/-- Shape of a terminal result entry: either the success dict (response
present, no error flag) or the error dict (no response, error flag True,
message carrying the exception text) - never a mixture. -/
def terminalShape (r : ResultEntry) : Prop :=
  (r.status = "success" ∧ r.response.isSome = true ∧ r.error = none)
  ∨ (r.status = "error" ∧ r.response = none ∧ r.error = some true)

/-- A stub external client used for concrete evaluations. -/
def stubClient : Client :=
  { create_task := fun _ => Except.ok ("fh-1"),
    run_tasks_until_done := fun _ _ => Except.ok ("ok"),
    arun_tasks_until_done := fun tds => Except.ok (tds.map (fun _ => "ok")),
    get_task := fun _ => Except.error ("task not found"),
    get_task_status := fun _ => Except.ok ("success") }

/-- A client whose blocking run always raises. -/
def alwaysFailClient : Client :=
  { create_task := fun _ => Except.error ("boom"),
    run_tasks_until_done := fun _ _ => Except.error ("boom"),
    arun_tasks_until_done := fun _ => Except.error ("boom"),
    get_task := fun _ => Except.error ("boom"),
    get_task_status := fun _ => Except.error ("boom") }

/-- A delivery oracle that always reports success. -/
def postOk : String → ResultEntry → Nat → Except String Nat :=
  fun _ _ _ => Except.ok 200

/-- A delivery oracle that always reports a transport error. -/
def postDown : String → ResultEntry → Nat → Except String Nat :=
  fun _ _ _ => Except.error ("connection refused")

/-- A well-formed asynchronous submission body for the CROW job. -/
def askBody : ReqBody :=
  { job_name := some ("CROW"), query := some ("q"), webhook_url := none,
    verbose := none, runtime_config := none, task_id := none }

/-- A submission body naming the unknown job RAVEN. -/
def ravenBody : ReqBody :=
  { job_name := some ("RAVEN"), query := some ("q"), webhook_url := none,
    verbose := none, runtime_config := none, task_id := none }

/-- A concrete task description. -/
def demoTd : TaskData :=
  { name := "CROW", query := "q", runtime_config := none, task_id := none }

/-- A concrete store with one terminal task and one running task. -/
def demoStore : Store :=
  { active_tasks := [("run-1", ⟨"running", 5, demoTd⟩)],
    task_results := [("done-1", successEntry ("done-1") demoTd ("r") 9)] }

theorem dget_dinsert_same {α : Type} (k : String) (v : α) (d : List (String × α)) :
    dget k (dinsert k v d) = some v := by
  simp [dget, dinsert, List.find?]

theorem find?_filter_ne {α : Type} (j k : String) (h : j ≠ k)
    (d : List (String × α)) :
    (d.filter (fun p => p.1 != k)).find? (fun p => p.1 == j)
      = d.find? (fun p => p.1 == j) := by
  induction d with
  | nil => rfl
  | cons a t ih =>
      rw [List.filter_cons]
      by_cases hak : a.1 = k
      · have hne : (a.1 != k) = false := by
          rw [bne_eq_false_iff_eq]
          exact hak
        have h2 : (a.1 == j) = false := by
          rw [beq_eq_false_iff_ne, hak]
          exact fun hkj => h hkj.symm
        rw [if_neg (by simp [hne]), ih, List.find?_cons, h2]
      · have h1 : (a.1 != k) = true := by
          rw [bne_iff_ne]
          exact hak
        rw [if_pos h1, List.find?_cons, List.find?_cons]
        cases haj : a.1 == j with
        | true => rfl
        | false => exact ih

theorem dget_dinsert_ne {α : Type} (j k : String) (h : j ≠ k) (v : α)
    (d : List (String × α)) :
    dget j (dinsert k v d) = dget j d := by
  have hkj : (((k, v) : String × α).1 == j) = false := by
    rw [beq_eq_false_iff_ne]
    exact fun hkj => h hkj.symm
  unfold dget dinsert
  rw [List.find?_cons]
  rw [show (((k, v) : String × α).1 == j) = false from hkj]
  rw [find?_filter_ne j k h d]

theorem dmem_dinsert_self {α : Type} (k : String) (v : α)
    (d : List (String × α)) :
    dmem k (dinsert k v d) = true := by
  simp [dmem, dinsert, List.any]

theorem dget_dupdateStatus_ne (j id : String) (h : j ≠ id) (s : String)
    (d : List (String × ActiveEntry)) :
    dget j (dupdateStatus id s d) = dget j d := by
  induction d with
  | nil => rfl
  | cons a t ih =>
      unfold dupdateStatus at ih ⊢
      rw [List.map_cons]
      by_cases hai : (a.1 == id) = true
      · rw [if_pos hai]
        have haj : (a.1 == j) = false := by
          rw [beq_eq_false_iff_ne]
          intro e
          exact h (e ▸ eq_of_beq hai)
        unfold dget
        rw [List.find?_cons, List.find?_cons]
        rw [show (((a.1, { a.2 with status := s }) : String × ActiveEntry).1 == j) = false from haj]
        unfold dget at ih
        exact ih
      · rw [if_neg hai]
        unfold dget
        rw [List.find?_cons, List.find?_cons]
        cases haj : a.1 == j with
        | true => rfl
        | false => exact ih

theorem send_webhook_response_call
    (post : String → ResultEntry → Nat → Except String Nat)
    (u : String) (data : ResultEntry) (tid : String) :
    (send_webhook_response post u data tid).1 = ⟨u, data, tid, 30⟩ := by
  unfold send_webhook_response
  cases post u data 30 with
  | ok code => by_cases h : (code == 200) = true <;> simp [h]
  | error e => simp

/-- Claim C10: applying the handle_errors decorator to any function raises
NameError instead of returning a wrapped function.  At the scope in force
when the first decoration runs during import, the try block of the decorator
body reads the unbound global task_id and raises; the except block rereads
task_id and the NameError propagates out of the decoration, before control
ever reaches the statement that builds and returns decorated_function.  Both
task_id and task_data are unbound in that scope, so no route decorated with
handle_errors can be constructed. -/
theorem handle_errors_decoration_raises_name_error :
    handle_errors decorationTimeGlobals
      = Except.error ("NameError: name \x27task_id\x27 is not defined")
    ∧ decorationTimeGlobals.contains ("task_id") = false
    ∧ decorationTimeGlobals.contains ("task_data") = false := ⟨rfl, rfl, rfl⟩

/-- Claim C1: the claim promises a 202 response with task_id, status_url and
result_url for every valid asynchronous submission with the client
available.  The code cannot deliver it: with the client available and a
valid body, create_async_task reaches the thread construction at app.py
line 422, whose target reads the global execute_task_async, a name no
statement of the module binds; the handler therefore raises NameError and
produces no 202 response. -/
theorem async_handler_raises_missing_executor_name :
    create_async_task true (some stubClient) moduleTopLevelNames
        (some askBody) ("tid-1")
      = Except.error ("NameError: name \x27execute_task_async\x27 is not defined")
    ∧ moduleTopLevelNames.contains ("execute_task_async") = false := ⟨rfl, rfl⟩

/-- Claim C2 counterexample: the handler performs no registry write, so a
status read issued with the task id the 202 response carries, against the
store as it stands when that response is produced, answers 404 rather than
a Running view.  Registration happens only when the spawned thread later
runs the background executor (the handler, app.py lines 368-440, never
touches active_tasks or task_results; the registration write is the first
statement of the worker body, lines 87-91).  The submission is evaluated in
the scope where the executor name is bound, so that it is accepted with 202
as the claim presupposes. -/
theorem submit_then_immediate_status_read_is_404 :
    create_async_task true (some stubClient) intendedGlobals
        (some askBody) ("tid-2")
      = Except.ok
          (⟨202, Body.acceptedB ("tid-2") ("CROW") ("q") none
              ("Tâche démarrée en mode asynchrone")
              ("/task/tid-2/status") ("/task/tid-2/result")⟩,
           some ⟨demoTd, "tid-2", none, false⟩)
    ∧ get_async_task_status emptyStore ("tid-2") 0
        = ⟨404, Body.errorB ("Tâche non trouvée")⟩ := ⟨rfl, rfl⟩

/-- Claim C2 (amended): registration is not synchronous in the submission
handler; it is the first action of the background worker.  Once the worker
has performed its registration write, a status read with the task id finds
the running view (status running, started_at, elapsed time) as long as no
result entry exists for the id; and every execution of the worker emits the
registration write as its first event. -/
theorem registration_happens_in_worker (st : Store) (td : TaskData)
    (id : String) (now t : Nat) (h : dget id st.task_results = none) :
    get_async_task_status (registerTask st id now td) id t
      = ⟨200, Body.runningB ("running") id now (t - now)
          ("Tâche en cours d\x27exécution")⟩
    ∧ (∀ (c : Client) (url : Option String) (v : Bool)
        (post : String → ResultEntry → Nat → Except String Nat) (doneAt : Nat),
        (execute_task_async c st td id url v post now doneAt).2.head?
          = some (Event.regWrite id)) := by
  constructor
  · have hm : dmem id (dinsert id (⟨"running", now, td⟩ : ActiveEntry) st.active_tasks) = true :=
      dmem_dinsert_self id _ st.active_tasks
    simp [get_async_task_status, registerTask, hm, h, dget_dinsert_same]
  · intro c url v post doneAt
    cases hr : c.run_tasks_until_done td v with
    | ok resp =>
        cases url <;>
          simp [execute_task_async, execute_try, hr]
    | error e =>
        cases url <;>
          simp [execute_task_async, execute_try, execute_except, hr]

/-- Witness for registration_happens_in_worker at a concrete store, task
and clock. -/
theorem registration_happens_in_worker_witness :
    get_async_task_status (registerTask emptyStore ("tid-w2") 3 demoTd)
        ("tid-w2") 10
      = ⟨200, Body.runningB ("running") ("tid-w2") 3 7
          ("Tâche en cours d\x27exécution")⟩ :=
  (registration_happens_in_worker emptyStore demoTd ("tid-w2") 3 10 rfl).1

/-- Claim C3: when the background execution raises, the exception is caught
inside the worker (the worker is a total function of the outcome: it
returns a store and a trace instead of propagating), the stored entry is
the error dict with status error and message equal to the exception text,
and the webhook notifier receives exactly the failure payload when a
webhook url was supplied, and nothing otherwise. -/
theorem background_failure_caught (c : Client) (st : Store) (td : TaskData)
    (id : String) (url : Option String) (v : Bool)
    (post : String → ResultEntry → Nat → Except String Nat)
    (now doneAt : Nat) (e : String)
    (hrun : c.run_tasks_until_done td v = Except.error e) :
    dget id (execute_task_async c st td id url v post now doneAt).1.task_results
      = some (errorEntry id e doneAt)
    ∧ (errorEntry id e doneAt).status = "error"
    ∧ (errorEntry id e doneAt).message = e
    ∧ webhookCallsOf (execute_task_async c st td id url v post now doneAt).2
        = (match url with
           | some u => [⟨u, errorEntry id e doneAt, id, 30⟩]
           | none => []) := by
  refine ⟨?_, rfl, rfl, ?_⟩
  · cases url <;>
      simp [execute_task_async, execute_try, execute_except, hrun, failTask,
        registerTask, dget_dinsert_same]
  · cases url with
    | none =>
        simp [execute_task_async, execute_try, execute_except, hrun,
          webhookCallsOf]
    | some u =>
        simp [execute_task_async, execute_try, execute_except, hrun,
          webhookCallsOf, send_webhook_response_call]

/-- Witness for background_failure_caught: a client whose run raises boom,
with a webhook configured. -/
theorem background_failure_caught_witness :
    dget ("tid-f")
        (execute_task_async alwaysFailClient emptyStore demoTd ("tid-f")
          (some ("http://x/cb")) false postOk 0 1).1.task_results
      = some (errorEntry ("tid-f") ("boom") 1) :=
  (background_failure_caught alwaysFailClient emptyStore demoTd ("tid-f")
    (some ("http://x/cb")) false postOk 0 1 ("boom") rfl).1

/-- Claim C4: for every terminal task with a webhook url set, the worker
trace contains exactly one webhook delivery attempt, carrying the very
entry stored in task_results with the fixed timeout 30, and it is the last
event, strictly after the registry result and status writes; and the store
the worker produces does not depend on the delivery outcome oracle, so a
delivery failure is never retried and never changes stored state. -/
theorem webhook_single_call_after_registry_update (c : Client) (st : Store)
    (td : TaskData) (id u : String) (v : Bool)
    (post post2 : String → ResultEntry → Nat → Except String Nat)
    (now doneAt : Nat) :
    ∃ entry s lg,
      (execute_task_async c st td id (some u) v post now doneAt).2
        = [Event.regWrite id, Event.resultWrite id entry,
           Event.statusWrite id s, Event.webhookAttempt ⟨u, entry, id, 30⟩ lg]
      ∧ dget id (execute_task_async c st td id (some u) v post now doneAt).1.task_results
          = some entry
      ∧ (execute_task_async c st td id (some u) v post2 now doneAt).1
          = (execute_task_async c st td id (some u) v post now doneAt).1 := by
  cases hr : c.run_tasks_until_done td v with
  | ok resp =>
      refine ⟨successEntry id td resp doneAt, "completed",
        (send_webhook_response post u (successEntry id td resp doneAt) id).2,
        ?_, ?_, ?_⟩
      · simp [execute_task_async, execute_try, hr, send_webhook_response_call]
      · simp [execute_task_async, execute_try, hr, completeTask, registerTask,
          dget_dinsert_same]
      · simp [execute_task_async, execute_try, hr]
  | error e =>
      refine ⟨errorEntry id e doneAt, "error",
        (send_webhook_response post u (errorEntry id e doneAt) id).2,
        ?_, ?_, ?_⟩
      · simp [execute_task_async, execute_try, execute_except, hr,
          send_webhook_response_call]
      · simp [execute_task_async, execute_try, execute_except, hr, failTask,
          registerTask, dget_dinsert_same]
      · simp [execute_task_async, execute_try, execute_except, hr]

/-- Claim C5: the result endpoint answers 200 with the stored result dict
when the id has a terminal entry (terminal is exactly: present in
task_results, which only the two terminal writes populate), 202 pending when
the id is known only to the running registry, and 404 when it is unknown to
both; and the duplicate handler get_task_result coincides with this
behavior whenever the external lookup raises (its fallback path, app.py
line 366). -/
theorem result_endpoint_three_way (st : Store) (id : String) :
    (∀ r, dget id st.task_results = some r →
        get_async_task_result st id = ⟨200, Body.resultB r⟩)
    ∧ (dget id st.task_results = none → dmem id st.active_tasks = true →
        get_async_task_result st id
          = ⟨202, Body.pendingB id ("Tâche en cours, résultat pas encore disponible")⟩)
    ∧ (dget id st.task_results = none → dmem id st.active_tasks = false →
        get_async_task_result st id = ⟨404, Body.errorB ("Tâche non trouvée")⟩)
    ∧ (∀ (c : Client) (e : String), c.get_task id = Except.error e →
        get_task_result (some c) st id = get_async_task_result st id) := by
  refine ⟨?_, ?_, ?_, ?_⟩
  · intro r hr
    simp [get_async_task_result, hr]
  · intro h1 h2
    simp [get_async_task_result, h1, h2]
  · intro h1 h2
    simp [get_async_task_result, h1, h2]
  · intro c e he
    simp [get_task_result, he]

/-- Witness for result_endpoint_three_way: the terminal entry of the demo
store is served with 200. -/
theorem result_endpoint_three_way_witness :
    get_async_task_result demoStore ("done-1")
      = ⟨200, Body.resultB (successEntry ("done-1") demoTd ("r") 9)⟩ :=
  (result_endpoint_three_way demoStore ("done-1")).1
    (successEntry ("done-1") demoTd ("r") 9) rfl

/-- Claim C6 counterexample: an unknown job kind does not always get 400.
On POST /task/async the client-availability guard runs first, so the RAVEN
submission with the client unavailable is answered 503, not 400. -/
theorem unknown_job_with_unavailable_client_gets_503 :
    create_async_task false none moduleTopLevelNames (some ravenBody) ("tid-3")
      = Except.ok (⟨503, Body.errorB ("Client FutureHouse non disponible")⟩, none)
    ∧ (503 : Nat) ≠ 400 := ⟨rfl, by decide⟩

/-- Claim C6 (amended): provided the endpoint reaches validation (POST
/task and /task/batch always do; POST /task/async and /task/run only when
the availability guard passes, else 503), a submission whose upper-cased
job_name is not a valid kind is answered 400 with the message listing the
valid kinds, uniformly in the client (no external call is made), with no
thread spawned; and job kinds differing from a valid kind only in letter
case pass validation. -/
theorem invalid_job_rejected_with_400 (c : Client) (g : List String)
    (tid : String) (d : ReqBody) (jn q : String)
    (hjn : d.job_name = some jn) (hq : d.query = some q)
    (hbad : valid_jobs.contains (pyUpper jn) = false) :
    create_task (some c) (some d) = Except.ok ⟨400, Body.errorB invalidJobMessage⟩
    ∧ run_task_until_done true (some c) (some d)
        = Except.ok ⟨400, Body.errorB invalidJobMessage⟩
    ∧ create_async_task true (some c) g (some d) tid
        = Except.ok (⟨400, Body.errorB invalidJobMessage⟩, none)
    ∧ (∀ (b : BatchEntry) (rest : List BatchEntry),
        b.job_name = some jn → b.query = some q →
        run_batch_tasks (some c) (some (b :: rest))
          = Except.ok ⟨400, Body.errorB (batchInvalidMessage (pyUpper jn))⟩)
    ∧ (∀ (d2 : ReqBody) (jn2 q2 : String),
        d2.job_name = some jn2 → d2.query = some q2 →
        valid_jobs.contains (pyUpper jn2) = true →
        run_task_until_done true (some stubClient) (some d2)
          = Except.ok ⟨200, Body.runB (pyUpper jn2) q2 ("ok")
              ("Tâche exécutée avec succès")⟩) := by
  have hbad2 : pyUpper jn ∉ valid_jobs := by
    intro hmem
    have hc : valid_jobs.contains (pyUpper jn) = true := by
      simpa using hmem
    rw [hbad] at hc
    exact Bool.false_ne_true hc
  refine ⟨?_, ?_, ?_, ?_, ?_⟩
  · simp [create_task, hjn, hq, hbad2]
  · simp [run_task_until_done, hjn, hq, hbad2]
  · simp [create_async_task, hjn, hq, hbad2]
  · intro b rest hb1 hb2
    simp [run_batch_tasks, buildBatchTasks, hb1, hb2, hbad2]
  · intro d2 jn2 q2 h1 h2 h3
    have h4 : pyUpper jn2 ∈ valid_jobs := by
      simpa using h3
    simp [run_task_until_done, h1, h2, h4, stubClient]

/-- Witness for invalid_job_rejected_with_400 at the RAVEN body. -/
theorem invalid_job_rejected_with_400_witness :
    create_task (some stubClient) (some ravenBody)
      = Except.ok ⟨400, Body.errorB invalidJobMessage⟩ :=
  (invalid_job_rejected_with_400 stubClient [] ("t") ravenBody ("RAVEN") ("q")
    rfl rfl rfl).1

/-- Claim C7 counterexample: POST /task with the client unavailable does
not return 503.  The handler has no availability guard; the attribute
access on the absent client raises, and the uniform error wrapper turns the
exception into a 500 envelope. -/
theorem unavailable_client_create_task_returns_500 :
    decorated_function (create_task none (some askBody))
      = ⟨500, Body.wrapErrB
          ("AttributeError: \x27NoneType\x27 object has no attribute \x27create_task\x27")⟩
    ∧ (500 : Nat) ≠ 503 := ⟨rfl, by decide⟩

/-- Claim C7 (amended): POST /task performs no availability check; with the
client unavailable and valid fields the handler raises and the error
wrapper answers 500; with the client available and valid fields it answers
200 with task_id, job_name and query; missing fields, an invalid job kind,
and a missing JSON body are each answered 400. -/
theorem create_task_endpoint_behavior (d : ReqBody) (jn q : String)
    (hjn : d.job_name = some jn) (hq : d.query = some q)
    (hok : valid_jobs.contains (pyUpper jn) = true) :
    (∃ msg, create_task none (some d) = Except.error msg
        ∧ decorated_function (create_task none (some d)) = ⟨500, Body.wrapErrB msg⟩)
    ∧ (∀ (c : Client) (tid : String),
        c.create_task { name := pyUpper jn, query := q,
                        runtime_config := d.runtime_config, task_id := d.task_id }
          = Except.ok tid →
        create_task (some c) (some d)
          = Except.ok ⟨200, Body.createdB tid (pyUpper jn) q ("Tâche créée avec succès")⟩)
    ∧ (∀ (d2 : ReqBody), d2.job_name = none →
        create_task (some stubClient) (some d2)
          = Except.ok ⟨400, Body.errorB ("Les paramètres job_name et query sont requis")⟩)
    ∧ (∀ (d3 : ReqBody) (jn3 q3 : String),
        d3.job_name = some jn3 → d3.query = some q3 →
        valid_jobs.contains (pyUpper jn3) = false →
        create_task (some stubClient) (some d3)
          = Except.ok ⟨400, Body.errorB invalidJobMessage⟩)
    ∧ create_task (some stubClient) none
        = Except.ok ⟨400, Body.errorB ("Données JSON requises")⟩ := by
  have hok2 : pyUpper jn ∈ valid_jobs := by
    simpa using hok
  refine ⟨?_, ?_, ?_, ?_, rfl⟩
  · refine ⟨"AttributeError: \x27NoneType\x27 object has no attribute \x27create_task\x27", ?_, ?_⟩
    · simp [create_task, hjn, hq, hok2]
    · simp [decorated_function, create_task, hjn, hq, hok2]
  · intro c tid hc
    simp [create_task, hjn, hq, hok2, hc]
  · intro d2 h2
    simp [create_task, h2]
  · intro d3 jn3 q3 h1 h2 h3
    have h4 : pyUpper jn3 ∉ valid_jobs := by
      intro hmem
      have hc : valid_jobs.contains (pyUpper jn3) = true := by
        simpa using hmem
      rw [h3] at hc
      exact Bool.false_ne_true hc
    simp [create_task, h1, h2, h4]

/-- Witness for create_task_endpoint_behavior: the available-client success
path at the CROW body and the stub client. -/
theorem create_task_endpoint_behavior_witness :
    create_task (some stubClient) (some askBody)
      = Except.ok ⟨200, Body.createdB ("fh-1") ("CROW") ("q")
          ("Tâche créée avec succès")⟩ :=
  (create_task_endpoint_behavior askBody ("CROW") ("q") rfl rfl rfl).2.1
    stubClient ("fh-1") rfl

/-- Claim C8 counterexample: a second terminal write on an id that is
already terminal does not leave the registry in the state of the first
call; the registry write is an unconditional dict assignment, so the second
payload overwrites the first. -/
theorem second_terminal_write_overwrites :
    dget ("t8")
        (completeTask
          (completeTask (registerTask emptyStore ("t8") 0 demoTd) ("t8")
            (successEntry ("t8") demoTd ("first") 1))
          ("t8") (successEntry ("t8") demoTd ("second") 2)).task_results
      = some (successEntry ("t8") demoTd ("second") 2)
    ∧ successEntry ("t8") demoTd ("second") 2
        ≠ successEntry ("t8") demoTd ("first") 1 := ⟨rfl, by decide⟩

/-- Claim C8 (amended): the terminal registry writes are last-writer-wins:
after a second complete or fail on the same id the stored entry is the
payload of the second call, and after a single complete it is that first
payload.  No guard rejects a write on an already terminal id; in program
runs each task gets exactly one terminal write, from its own worker. -/
theorem terminal_write_is_last_writer_wins (st : Store) (id : String)
    (r1 r2 : ResultEntry) :
    dget id (completeTask (completeTask st id r1) id r2).task_results = some r2
    ∧ dget id (failTask (completeTask st id r1) id r2).task_results = some r2
    ∧ dget id (completeTask st id r1).task_results = some r1 := by
  refine ⟨?_, ?_, ?_⟩ <;>
    simp [completeTask, failTask, dget_dinsert_same]

/-- Claim C9: lifecycle invariants of the registry under the operation
sequences the program performs (one registration then exactly one terminal
write per task, from its worker).  After registration the observable state
of the id is Running with no stored result entry (so neither a success
result nor an error message exists while Running); after the worker
finishes, the observable state is terminal with a well-formed entry in
which success response and error message are mutually exclusive; every
status read of a terminal id serves the terminal entry, never a Running
view; and the worker leaves every other id untouched, so no task re-enters
Running. -/
theorem task_lifecycle_invariants (c : Client) (st : Store) (td : TaskData)
    (id : String) (url : Option String) (v : Bool)
    (post : String → ResultEntry → Nat → Except String Nat) (now doneAt : Nat)
    (h : dget id st.task_results = none) :
    observe (registerTask st id now td) id
      = ObsState.running ⟨"running", now, td⟩
    ∧ dget id (registerTask st id now td).task_results = none
    ∧ (∃ entry, terminalShape entry
        ∧ observe (execute_task_async c st td id url v post now doneAt).1 id
            = ObsState.terminal entry
        ∧ ∀ t, get_async_task_status
                 (execute_task_async c st td id url v post now doneAt).1 id t
               = ⟨200, Body.resultB entry⟩)
    ∧ (∀ j, j ≠ id →
        observe (execute_task_async c st td id url v post now doneAt).1 j
          = observe st j) := by
  refine ⟨?_, ?_, ?_, ?_⟩
  · simp [observe, registerTask, h, dget_dinsert_same]
  · simpa [registerTask] using h
  · cases hr : c.run_tasks_until_done td v with
    | ok resp =>
        refine ⟨successEntry id td resp doneAt, Or.inl ⟨rfl, rfl, rfl⟩, ?_, ?_⟩
        · cases url <;>
            simp [execute_task_async, execute_try, hr, completeTask,
              registerTask, observe, dget_dinsert_same]
        · intro t
          have hm : ∀ d : List (String × ResultEntry),
              dmem id (dinsert id (successEntry id td resp doneAt) d) = true :=
            fun d => dmem_dinsert_self id _ d
          cases url <;>
            simp [execute_task_async, execute_try, hr, completeTask,
              registerTask, get_async_task_status, hm, dget_dinsert_same]
    | error e =>
        refine ⟨errorEntry id e doneAt, Or.inr ⟨rfl, rfl, rfl⟩, ?_, ?_⟩
        · cases url <;>
            simp [execute_task_async, execute_try, execute_except, hr,
              failTask, registerTask, observe, dget_dinsert_same]
        · intro t
          have hm : ∀ d : List (String × ResultEntry),
              dmem id (dinsert id (errorEntry id e doneAt) d) = true :=
            fun d => dmem_dinsert_self id _ d
          cases url <;>
            simp [execute_task_async, execute_try, execute_except, hr,
              failTask, registerTask, get_async_task_status, hm,
              dget_dinsert_same]
  · intro j hj
    cases hr : c.run_tasks_until_done td v with
    | ok resp =>
        cases url <;>
          simp [execute_task_async, execute_try, hr, completeTask,
            registerTask, observe, dget_dinsert_ne j id hj,
            dget_dupdateStatus_ne j id hj]
    | error e =>
        cases url <;>
          simp [execute_task_async, execute_try, execute_except, hr,
            failTask, registerTask, observe, dget_dinsert_ne j id hj,
            dget_dupdateStatus_ne j id hj]

/-- Witness for task_lifecycle_invariants: registering a fresh id in the
empty store yields a Running observation. -/
theorem task_lifecycle_invariants_witness :
    observe (registerTask emptyStore ("tid-9") 2 demoTd) ("tid-9")
      = ObsState.running ⟨"running", 2, demoTd⟩ :=
  (task_lifecycle_invariants stubClient emptyStore demoTd ("tid-9") none false
    postOk 2 5 rfl).1
